import Mathlib

/-!
Shallow embedding of the nethunteros/installer orchestrator.

The repository contains two installer variants sharing one orchestrator
shape: the fixed OnePlus 5 installer (src/main.go, embedded as `run5`) and
the table-driven multi-profile installer (the wmenu-based main in
src/remote/nh.go, embedded as `runMulti`).  Each external call site of the
straight-line Go code is given one field of an environment record holding
the result that call would return (Go functions return a value together
with an error, modelled as a pair with a Bool error flag).  Running the
interpreter yields the list of issued operations (the trace, each entry
paired with the error the operation reported) and the process exit code.

The `os.Executable` panic path and the terminal echo/progress output are
not modelled: neither touches a device nor produces an `exit(code)` call.
A failed `os.Chdir` only prints a warning in the source and is likewise
omitted.
-/

-- Exit codes, from the shared const blocks of both variants.
def Success : Nat := 0

def SuccessBase : Nat := 1 <<< 5

def SuccessUserAbort : Nat := 1 <<< 5 + 1

def SuccessBootloaderUnlocked : Nat := 1 <<< 5 + 2

def ErrorBase : Nat := 1 <<< 6

def ErrorPrereqs : Nat := 1 <<< 6 + 1

def ErrorUserInput : Nat := 1 <<< 6 + 2

def ErrorUsbPerms : Nat := 1 <<< 6 + 3

def ErrorAdb : Nat := 1 <<< 6 + 4

def ErrorFastboot : Nat := 1 <<< 6 + 5

def ErrorRemote : Nat := 1 <<< 6 + 6

def ErrorTWRP : Nat := 1 <<< 6 + 7

/-- The declared success exit codes of the classification. -/
def successCodes : List Nat := [Success, SuccessUserAbort, SuccessBootloaderUnlocked]

/-- The declared error exit codes of the classification. -/
def errorCodes : List Nat :=
  [ErrorPrereqs, ErrorUserInput, ErrorUsbPerms, ErrorAdb, ErrorFastboot, ErrorRemote, ErrorTWRP]

/-- Device-presence status reported by the two control planes
(the android package is external to the orchestrator; the spec's
DeviceStatus enumeration has these four values). -/
inductive DeviceStatus where
  | NoDeviceFound
  | DeviceUnauthorized
  | NoUsbPerms
  | DeviceFound
  deriving DecidableEq

/-- One observable operation issued by the orchestrator. -/
inductive Event where
  | AdbStatus
  | AdbReboot (target : String)
  | AdbSideload (file : String)
  | AdbPush (file dir : String)
  | AdbShell (cmd : String)
  | FbStatus
  | FbGetProduct
  | FbUnlocked
  | FbUnlock
  | FbReboot
  | FbFlashRecovery (file : String)
  | FbBoot (file : String)
  | Download (url : String)
  | Stat (file : String)
  | Sleep (ms : Nat)
  | Menu (options : List String)
  | CommitDevice (common : String) (product : String)
  deriving DecidableEq

/-- A trace entry: the operation together with the error flag it returned
(false for operations that cannot fail, such as a stat query or a sleep). -/
abbrev Entry : Type := Event × Bool

/-- Control-plane operations: every adb or fastboot call. -/
def cpOp : Event → Bool
  | Event.AdbStatus => true
  | Event.AdbReboot _ => true
  | Event.AdbSideload _ => true
  | Event.AdbPush _ _ => true
  | Event.AdbShell _ => true
  | Event.FbStatus => true
  | Event.FbGetProduct => true
  | Event.FbUnlocked => true
  | Event.FbUnlock => true
  | Event.FbReboot => true
  | Event.FbFlashRecovery _ => true
  | Event.FbBoot _ => true
  | _ => false

/-- Device-mutating operations in the sense of claim C1:
flash, boot, sideload (a flash through recovery), push, shell, reboot. -/
def mutOp : Event → Bool
  | Event.AdbReboot _ => true
  | Event.AdbSideload _ => true
  | Event.AdbPush _ _ => true
  | Event.AdbShell _ => true
  | Event.FbReboot => true
  | Event.FbFlashRecovery _ => true
  | Event.FbBoot _ => true
  | _ => false

/-- Staging or flashing operations in the sense of claim C4: artifact
presence checks and downloads, flash/boot of images, sideload, push,
shell installs and wipes. -/
def stagingOrFlashOp : Event → Bool
  | Event.Download _ => true
  | Event.Stat _ => true
  | Event.AdbSideload _ => true
  | Event.AdbPush _ _ => true
  | Event.AdbShell _ => true
  | Event.FbFlashRecovery _ => true
  | Event.FbBoot _ => true
  | _ => false

/-- Download operations. -/
def isDownload : Event → Bool
  | Event.Download _ => true
  | _ => false

/-- Profile-commit markers. -/
def isCommit : Event → Bool
  | Event.CommitDevice _ _ => true
  | _ => false

def isUnlock : Event → Bool
  | Event.FbUnlock => true
  | _ => false

def isFbReboot : Event → Bool
  | Event.FbReboot => true
  | _ => false

/-- Every operation of the trace satisfies p. -/
def allEv (p : Event → Bool) : List Entry → Bool
  | [] => true
  | e :: rest => p e.1 && allEv p rest

/-- Some operation of the trace satisfies p. -/
def hasEv (p : Event → Bool) : List Entry → Bool
  | [] => false
  | e :: rest => p e.1 || hasEv p rest

/-- The profile-commit entries of a trace, in order. -/
def commits : List Entry → List Entry
  | [] => []
  | e :: rest => if isCommit e.1 then e :: commits rest else commits rest

/-- The property claim C4 states of a run result: no staging or flashing
operation was issued, and if the unlock was invoked the run ended with
the SuccessBootloaderUnlocked code, a bootloader reboot having been
issued. -/
def bootUnlockedExit (r : List Entry × Nat) : Bool :=
  allEv (fun e => !stagingOrFlashOp e) r.1 &&
  ((!hasEv isUnlock r.1) ||
    ((r.2 == SuccessBootloaderUnlocked) && hasEv isFbReboot r.1))

/-- No failed control-plane call anywhere in the trace. -/
def cleanCp : List Entry → Bool
  | [] => true
  | e :: rest => (!(cpOp e.1 && e.2)) && cleanCp rest

/-- The property claim C1 states of a trace: after every control-plane
operation that returned an error, no device-mutating operation appears. -/
def noMutAfter : List Entry → Bool
  | [] => true
  | e :: rest =>
      ((!(cpOp e.1 && e.2)) || rest.all (fun x => !mutOp x.1)) && noMutAfter rest

/-- verifyAdbStatusOrAbort from both mains: the exit code it aborts with,
if any, from the adb status result it queried. -/
def verifyAdbStatusOrAbort (r : DeviceStatus × Bool) : Option Nat :=
  if r.2 then some ErrorAdb
  else if r.1 = DeviceStatus.NoDeviceFound ∨ r.1 = DeviceStatus.DeviceUnauthorized then
    some ErrorAdb
  else if r.1 = DeviceStatus.NoUsbPerms then some ErrorUsbPerms
  else none

/-- verifyFastbootStatusOrAbort from both mains. -/
def verifyFastbootStatusOrAbort (r : DeviceStatus × Bool) : Option Nat :=
  if r.2 then some ErrorFastboot
  else if r.1 = DeviceStatus.NoDeviceFound then some ErrorFastboot
  else if r.1 = DeviceStatus.NoUsbPerms then some ErrorUsbPerms
  else none

-- Artifact names and URLs hardcoded in src/main.go (OnePlus 5 variant).
def nhzip : String := "nethunter-oneplus5-oos-nougat-kalifs-full-20170828_192201.zip"

def nhzipurl : String :=
  "https://build.nethunter.com/misc/nethunter-oneplus5-oos-nougat-kalifs-full-20170828_192201.zip"

def oxygenrecovery : String := "OP5_recovery.img"

def recoveryimgurl : String := "http://oxygenos.oneplus.net.s3.amazonaws.com/OP5_recovery.img"

def factory : String := "OnePlus5Oxygen_23_OTA_013_all_1708032241_1213265a0ad04ecf.zip"

def oxygenurl : String :=
  "http://oxygenos.oneplus.net.s3.amazonaws.com/OnePlus5Oxygen_23_OTA_013_all_1708032241_1213265a0ad04ecf.zip"

def twrp : String := "twrp-3.1.1-1-cheeseburger.img"

def twrpurl : String := "https://dl.twrp.me/cheeseburger/twrp-3.1.1-1-cheeseburger.img"

/-- Environment of the OnePlus 5 installer (src/main.go): one field per
external call site, in program order.  Fields pairing a value with a Bool
carry the Go (value, error) result of that call; `stat` tells whether a
local file is present (os.Stat not reporting IsNotExist); `download` is
the error flag remote.DownloadURL would return for a URL.  DownloadURL
itself is not under src (spec section 6: the artifact retrieval
collaborator fetches a URL and fails with a transfer error); every caller
in src discards its result. -/
structure Env5 where
  versionFlag : Bool
  setenvErr : Bool
  readLine : Except Unit String
  adbStatus0 : DeviceStatus × Bool
  fbStatus0 : DeviceStatus × Bool
  fbStatus1 : DeviceStatus × Bool
  adbStatus1 : DeviceStatus × Bool
  adbRebootBlErr : Bool
  fbStatus2 : DeviceStatus × Bool
  fbStatus3 : DeviceStatus × Bool
  getProduct : String × Bool
  unlockedRes : Bool × Bool
  unlockErr : Bool
  fbRebootErr : Bool
  stat : String → Bool
  download : String → Bool
  flashRecoveryErr : Bool
  bootRecoveryErr : Bool
  sideloadErr : Bool
  fbStatus4 : DeviceStatus × Bool
  adbStatus2 : DeviceStatus × Bool
  adbRebootBl2Err : Bool
  fbStatus5 : DeviceStatus × Bool
  flashTwrpErr : Bool
  bootTwrpErr : Bool
  pushNhErr : Bool
  installNhErr : Bool
  wipeCacheErr : Bool
  wipeDalvikErr : Bool
  wipeDataErr : Bool
  adbRebootFinalErr : Bool

/-- src/main.go lines 331-391: flash TWRP, boot it, push and install the
Nethunter zip, post-install wipes, final reboot. -/
def run5Final (env : Env5) (t : List Entry) : List Entry × Nat :=
  let t := t ++ [(Event.FbFlashRecovery twrp, env.flashTwrpErr)]
  if env.flashTwrpErr then (t, ErrorTWRP) else
  let t := t ++ [(Event.FbBoot twrp, env.bootTwrpErr)]
  if env.bootTwrpErr then (t, ErrorTWRP) else
  let t := t ++ [(Event.Sleep 30000, false), (Event.AdbPush nhzip "/sdcard", env.pushNhErr)]
  if env.pushNhErr then (t, ErrorAdb) else
  let t := t ++ [(Event.AdbShell ("twrp install /sdcard/" ++ nhzip), env.installNhErr)]
  if env.installNhErr then (t, ErrorTWRP) else
  let t := t ++ [(Event.Sleep 2000, false), (Event.AdbShell "twrp wipe cache", env.wipeCacheErr)]
  if env.wipeCacheErr then (t, ErrorTWRP) else
  let t := t ++ [(Event.Sleep 1000, false), (Event.AdbShell "twrp wipe dalvik", env.wipeDalvikErr)]
  if env.wipeDalvikErr then (t, ErrorTWRP) else
  let t := t ++ [(Event.Sleep 1000, false), (Event.AdbShell "twrp wipe data", env.wipeDataErr)]
  if env.wipeDataErr then (t, ErrorTWRP) else
  let t := t ++ [(Event.Sleep 1000, false), (Event.AdbReboot "", env.adbRebootFinalErr)]
  if env.adbRebootFinalErr then (t, ErrorAdb) else
  (t, Success)

/-- src/main.go lines 246-272, the staging block: each artifact is
downloaded when a stat reports its file absent.  Note line 269: the TWRP
download is guarded by os.Stat of the factory zip, not of the TWRP
image. -/
def stage5 (env : Env5) : List Entry :=
  ([(Event.Stat nhzip, false)] ++
    (if env.stat nhzip then [] else [(Event.Download nhzipurl, env.download nhzipurl)])) ++
  ([(Event.Stat oxygenrecovery, false)] ++
    (if env.stat oxygenrecovery then []
     else [(Event.Download recoveryimgurl, env.download recoveryimgurl)])) ++
  ([(Event.Stat factory, false)] ++
    (if env.stat factory then [] else [(Event.Download oxygenurl, env.download oxygenurl)])) ++
  ([(Event.Stat factory, false)] ++
    (if env.stat factory then [] else [(Event.Download twrpurl, env.download twrpurl)]))

/-- src/main.go lines 213-329: fastboot verification, identification,
unlock check, artifact staging, flash and boot of the Oxygen recovery,
sideload of the factory zip, and the second mode transition. -/
def run5Main (env : Env5) (t : List Entry) : List Entry × Nat :=
  let t := t ++ [(Event.FbStatus, env.fbStatus3.2)]
  match verifyFastbootStatusOrAbort env.fbStatus3 with
  | some c => (t, c)
  | none =>
  let t := t ++ [(Event.FbGetProduct, env.getProduct.2)]
  if env.getProduct.2 then (t, ErrorFastboot) else
  let t := t ++ [(Event.FbUnlocked, env.unlockedRes.2)]
  if env.unlockedRes.1 = false then
    let t := t ++ [(Event.FbUnlock, env.unlockErr)]
    if env.unlockErr then (t, ErrorFastboot) else
    (t ++ [(Event.FbReboot, env.fbRebootErr)], SuccessBootloaderUnlocked)
  else
  let t := t ++ stage5 env
  let t := t ++ [(Event.FbFlashRecovery oxygenrecovery, env.flashRecoveryErr)]
  if env.flashRecoveryErr then (t, ErrorTWRP) else
  let t := t ++ [(Event.FbBoot oxygenrecovery, env.bootRecoveryErr)]
  if env.bootRecoveryErr then (t, ErrorTWRP) else
  let t := t ++ [(Event.AdbSideload factory, env.sideloadErr)]
  if env.sideloadErr then (t, ErrorTWRP) else
  let t := t ++ [(Event.FbStatus, env.fbStatus4.2)]
  if env.fbStatus4.1 = DeviceStatus.NoDeviceFound then
    let t := t ++ [(Event.AdbStatus, env.adbStatus2.2)]
    match verifyAdbStatusOrAbort env.adbStatus2 with
    | some c => (t, c)
    | none =>
    let t := t ++ [(Event.AdbReboot "bootloader", env.adbRebootBl2Err)]
    if env.adbRebootBl2Err then (t, ErrorAdb) else
    let t := t ++ [(Event.Sleep 7000, false), (Event.FbStatus, env.fbStatus5.2)]
    if env.fbStatus5.2 = true ∨ env.fbStatus5.1 = DeviceStatus.NoDeviceFound then (t, ErrorAdb)
    else run5Final env t
  else run5Final env t

/-- The OnePlus 5 installer main (src/main.go): version flag, PATH setup,
ready prompt, tool verification, first mode detection with its single
settle wait and single re-poll, then the main sequence. -/
def run5 (env : Env5) : List Entry × Nat :=
  if env.versionFlag then ([], Success) else
  if env.setenvErr then ([], ErrorPrereqs) else
  match env.readLine with
  | Except.error _ => ([], ErrorUserInput)
  | Except.ok resp =>
  if ¬ resp = "yes" then ([], SuccessUserAbort) else
  let t := [(Event.AdbStatus, env.adbStatus0.2)]
  if env.adbStatus0.2 then (t, ErrorPrereqs) else
  let t := t ++ [(Event.FbStatus, env.fbStatus0.2)]
  if env.fbStatus0.2 then (t, ErrorPrereqs) else
  let t := t ++ [(Event.FbStatus, env.fbStatus1.2)]
  if env.fbStatus1.1 = DeviceStatus.NoDeviceFound then
    let t := t ++ [(Event.AdbStatus, env.adbStatus1.2)]
    match verifyAdbStatusOrAbort env.adbStatus1 with
    | some c => (t, c)
    | none =>
    let t := t ++ [(Event.AdbReboot "bootloader", env.adbRebootBlErr)]
    if env.adbRebootBlErr then (t, ErrorAdb) else
    let t := t ++ [(Event.Sleep 7000, false), (Event.FbStatus, env.fbStatus2.2)]
    if env.fbStatus2.2 = true ∨ env.fbStatus2.1 = DeviceStatus.NoDeviceFound then (t, ErrorAdb)
    else run5Main env t
  else run5Main env t

/-- A device profile row of the multi-profile installer.  The struct
itself lives in a repository file not under src; its field names are
those the nh.go main reads (Common_name, Product_name, and the five
(file, url) artifact descriptor pairs of spec section 3). -/
structure Device where
  Common_name : String
  Product_name : String
  Extra_file : String
  Extra_url : String
  Nhos_file : String
  Nhos_url : String
  Nhfs_file : String
  Nhfs_url : String
  Gapps_file : String
  Gapps_url : String
  Twrp_file : String
  Twrp_url : String
  deriving DecidableEq

/-- The not-found profile: all fields empty, recognised by the orchestrator
through its empty Common_name. -/
def emptyDevice : Device :=
  { Common_name := "", Product_name := "", Extra_file := "", Extra_url := "",
    Nhos_file := "", Nhos_url := "", Nhfs_file := "", Nhfs_url := "",
    Gapps_file := "", Gapps_url := "", Twrp_file := "", Twrp_url := "" }

/-- Modelled from the spec: findDeviceConfig is called by the multi-profile
main but defined in a repository file not under src.  Spec section 4.1:
resolve is an exact-string match returning the profile or not-found, and
section 4.3 requires that after an explicit operator choice the
orchestrator re-resolves deterministically from that choice; since the
menu texts are the profiles' human-readable names while the hardware
identifier is the board name, the match accepts either field.  Not-found
is the empty profile. -/
def findDeviceConfig (devices : List Device) (name : String) : Device :=
  match devices.find? (fun d => d.Product_name = name ∨ d.Common_name = name) with
  | some d => d
  | none => emptyDevice

/-- Environment of the multi-profile installer (the wmenu-based main in
src/remote/nh.go): one field per external call site, in program order.
`devices` is the profile table readDevicesConfig loads (spec section 6:
the external structured-config collaborator supplies the ordered profile
sequence).  `menuChoice` is the operator's selection among the three
OnePlus options; `menuErr`/`gappsMenuErr` are wmenu Run failures, which
the source feeds to log.Fatal (process exit code 1). -/
structure EnvM where
  devices : List Device
  versionFlag : Bool
  setenvErr : Bool
  readLine : Except Unit String
  adbStatus0 : DeviceStatus × Bool
  fbStatus0 : DeviceStatus × Bool
  fbStatus1 : DeviceStatus × Bool
  adbStatus1 : DeviceStatus × Bool
  adbRebootBlErr : Bool
  fbStatus2 : DeviceStatus × Bool
  fbStatus3 : DeviceStatus × Bool
  getProduct : String × Bool
  menuErr : Bool
  menuChoice : Fin 3
  unlockedRes : Bool × Bool
  unlockErr : Bool
  fbRebootErr : Bool
  stat : String → Bool
  download : String → Bool
  flashTwrpErr : Bool
  bootTwrpErr : Bool
  wipeDalvikErr : Bool
  wipeDataErr : Bool
  wipeSystemErr : Bool
  pushExtraErr : Bool
  pushNhosErr : Bool
  pushNhfsErr : Bool
  pushGappsErr : Bool
  installExtraErr : Bool
  installNhosErr : Bool
  gappsMenuErr : Bool
  gappsYes : Bool
  installGappsErr : Bool
  wipeCache2Err : Bool
  wipeDalvik2Err : Bool
  adbRebootMidErr : Bool
  adbStatus2 : DeviceStatus × Bool
  adbRebootBl2Err : Bool
  bootTwrp2Err : Bool
  installNhfsErr : Bool
  adbRebootFinalErr : Bool

/-- nh.go multi-profile main, post-install tail: final cache/dalvik wipe,
reboot to system, adb re-verification, reboot to bootloader, second TWRP
boot, filesystem payload install, final reboot. -/
def runMultiTail (env : EnvM) (d : Device) (t : List Entry) : List Entry × Nat :=
  let t := t ++ [(Event.Sleep 10000, false), (Event.AdbShell "twrp wipe cache", env.wipeCache2Err)]
  if env.wipeCache2Err then (t, ErrorTWRP) else
  let t := t ++ [(Event.Sleep 1000, false), (Event.AdbShell "twrp wipe dalvik", env.wipeDalvik2Err)]
  if env.wipeDalvik2Err then (t, ErrorTWRP) else
  let t := t ++ [(Event.AdbReboot "", env.adbRebootMidErr)]
  if env.adbRebootMidErr then (t, ErrorAdb) else
  let t := t ++ [(Event.AdbStatus, env.adbStatus2.2)]
  match verifyAdbStatusOrAbort env.adbStatus2 with
  | some c => (t, c)
  | none =>
  let t := t ++ [(Event.AdbReboot "bootloader", env.adbRebootBl2Err)]
  if env.adbRebootBl2Err then (t, ErrorAdb) else
  let t := t ++ [(Event.Sleep 30000, false), (Event.FbBoot d.Twrp_file, env.bootTwrp2Err)]
  if env.bootTwrp2Err then (t, ErrorTWRP) else
  let t := t ++ [(Event.Sleep 20000, false),
    (Event.AdbShell ("twrp install /sdcard/" ++ d.Nhfs_file), env.installNhfsErr)]
  if env.installNhfsErr then (t, ErrorTWRP) else
  let t := t ++ [(Event.Sleep 30000, false), (Event.AdbReboot "", env.adbRebootFinalErr)]
  if env.adbRebootFinalErr then (t, ErrorAdb) else
  (t, Success)

/-- nh.go multi-profile main: the optional Gapps install menu (yes/no);
a wmenu Run failure goes to log.Fatal, exit code 1. -/
def runMultiGapps (env : EnvM) (d : Device) (t : List Entry) : List Entry × Nat :=
  let t := t ++ [(Event.Menu ["yes", "no"], false)]
  if env.gappsMenuErr then (t, 1) else
  if env.gappsYes then
    let t := t ++ [(Event.AdbShell ("twrp install /sdcard/" ++ d.Gapps_file), env.installGappsErr)]
    if env.installGappsErr then (t, ErrorTWRP) else runMultiTail env d t
  else runMultiTail env d t

/-- nh.go multi-profile main: pushes of the OS, filesystem and Gapps
payloads, then the installs; the extra payload, when its file name is
non-empty, is installed before the OS payload. -/
def runMultiPush (env : EnvM) (d : Device) (t : List Entry) : List Entry × Nat :=
  let t := t ++ [(Event.AdbPush d.Nhos_file "/sdcard", env.pushNhosErr)]
  if env.pushNhosErr then (t, ErrorAdb) else
  let t := t ++ [(Event.AdbPush d.Nhfs_file "/sdcard", env.pushNhfsErr)]
  if env.pushNhfsErr then (t, ErrorAdb) else
  let t := t ++ [(Event.AdbPush d.Gapps_file "/sdcard", env.pushGappsErr)]
  if env.pushGappsErr then (t, ErrorAdb) else
  if ¬ d.Extra_file = "" then
    let t := t ++ [(Event.AdbShell ("twrp install /sdcard/" ++ d.Extra_file), env.installExtraErr)]
    if env.installExtraErr then (t, ErrorTWRP) else
    let t := t ++ [(Event.AdbShell ("twrp install /sdcard/" ++ d.Nhos_file), env.installNhosErr)]
    if env.installNhosErr then (t, ErrorTWRP) else
    runMultiGapps env d t
  else
    let t := t ++ [(Event.AdbShell ("twrp install /sdcard/" ++ d.Nhos_file), env.installNhosErr)]
    if env.installNhosErr then (t, ErrorTWRP) else
    runMultiGapps env d t

/-- nh.go multi-profile main: TWRP flash and boot, the three pre-install
wipes, and the extra-payload push, which is guarded only by a non-empty
extra file name. -/
def runMultiInstall (env : EnvM) (d : Device) (t : List Entry) : List Entry × Nat :=
  let t := t ++ [(Event.FbFlashRecovery d.Twrp_file, env.flashTwrpErr)]
  if env.flashTwrpErr then (t, ErrorTWRP) else
  let t := t ++ [(Event.FbBoot d.Twrp_file, env.bootTwrpErr)]
  if env.bootTwrpErr then (t, ErrorTWRP) else
  let t := t ++ [(Event.Sleep 1000, false), (Event.AdbShell "twrp wipe dalvik", env.wipeDalvikErr)]
  if env.wipeDalvikErr then (t, ErrorTWRP) else
  let t := t ++ [(Event.Sleep 1000, false), (Event.AdbShell "twrp wipe data", env.wipeDataErr)]
  if env.wipeDataErr then (t, ErrorTWRP) else
  let t := t ++ [(Event.Sleep 1000, false), (Event.AdbShell "twrp wipe system", env.wipeSystemErr)]
  if env.wipeSystemErr then (t, ErrorTWRP) else
  if ¬ d.Extra_file = "" then
    let t := t ++ [(Event.AdbPush d.Extra_file "/sdcard", env.pushExtraErr)]
    if env.pushExtraErr then (t, ErrorAdb) else runMultiPush env d t
  else runMultiPush env d t

/-- nh.go multi-profile main, staging (lines 729-754): the extra download
is attempted only when both the extra file name and the extra URL are
non-empty; each of the four fixed artifacts is downloaded when its own
file is absent.  Every DownloadURL result is discarded by the source. -/
def stageM (env : EnvM) (d : Device) : List Entry :=
  (if ¬ d.Extra_file = "" ∧ ¬ d.Extra_url = "" then
    (Event.Stat d.Extra_file, false) ::
      (if env.stat d.Extra_file then []
       else [(Event.Download d.Extra_url, env.download d.Extra_url)])
   else []) ++
  ([(Event.Stat d.Nhos_file, false)] ++
    (if env.stat d.Nhos_file then []
     else [(Event.Download d.Nhos_url, env.download d.Nhos_url)])) ++
  ([(Event.Stat d.Nhfs_file, false)] ++
    (if env.stat d.Nhfs_file then []
     else [(Event.Download d.Nhfs_url, env.download d.Nhfs_url)])) ++
  ([(Event.Stat d.Gapps_file, false)] ++
    (if env.stat d.Gapps_file then []
     else [(Event.Download d.Gapps_url, env.download d.Gapps_url)])) ++
  ([(Event.Stat d.Twrp_file, false)] ++
    (if env.stat d.Twrp_file then []
     else [(Event.Download d.Twrp_url, env.download d.Twrp_url)]))

/-- nh.go multi-profile main: staging followed by the install sequence. -/
def runMultiStage (env : EnvM) (d : Device) (t : List Entry) : List Entry × Nat :=
  runMultiInstall env d (t ++ stageM env d)

/-- nh.go multi-profile main: the GetProduct error check (performed after
the disambiguation menu), profile resolution, the commit of the found
profile (the source prints its two names; an empty Common_name means
not-found and exits with code 1), and the unlock check, terminal when the
bootloader is not unlocked. -/
def runMultiResolve (env : EnvM) (productName : String) (t : List Entry) : List Entry × Nat :=
  if env.getProduct.2 then (t, ErrorFastboot) else
  let d := findDeviceConfig env.devices productName
  if ¬ d.Common_name = "" then
    let t := t ++ [(Event.CommitDevice d.Common_name d.Product_name, false)]
    let t := t ++ [(Event.FbUnlocked, env.unlockedRes.2)]
    if env.unlockedRes.1 = false then
      let t := t ++ [(Event.FbUnlock, env.unlockErr)]
      if env.unlockErr then (t, ErrorFastboot) else
      (t ++ [(Event.FbReboot, env.fbRebootErr)], SuccessBootloaderUnlocked)
    else runMultiStage env d t
  else (t, 1)

/-- nh.go multi-profile main: fastboot verification and identification.
When the reported product is the shared OnePlus board name
QC_Reference_Phone, a three-option menu is shown and the selected option
text replaces the product name before resolution; a menu failure goes to
log.Fatal (exit code 1). -/
def runMultiIdentify (env : EnvM) (t : List Entry) : List Entry × Nat :=
  let t := t ++ [(Event.FbStatus, env.fbStatus3.2)]
  match verifyFastbootStatusOrAbort env.fbStatus3 with
  | some c => (t, c)
  | none =>
  let t := t ++ [(Event.FbGetProduct, env.getProduct.2)]
  if env.getProduct.1 = "QC_Reference_Phone" then
    let t := t ++ [(Event.Menu ["OnePlus 5", "OnePlus 2", "OnePlus 1"], false)]
    if env.menuErr then (t, 1) else
    runMultiResolve env (["OnePlus 5", "OnePlus 2", "OnePlus 1"].get env.menuChoice) t
  else runMultiResolve env env.getProduct.1 t

/-- The multi-profile installer main from src/remote/nh.go: version flag,
PATH setup, ready prompt, tool verification, first mode detection with
its single settle wait and single re-poll, then identification and the
profile-driven sequence. -/
def runMulti (env : EnvM) : List Entry × Nat :=
  if env.versionFlag then ([], Success) else
  if env.setenvErr then ([], ErrorPrereqs) else
  match env.readLine with
  | Except.error _ => ([], ErrorUserInput)
  | Except.ok resp =>
  if ¬ resp = "yes" then ([], SuccessUserAbort) else
  let t := [(Event.AdbStatus, env.adbStatus0.2)]
  if env.adbStatus0.2 then (t, ErrorPrereqs) else
  let t := t ++ [(Event.FbStatus, env.fbStatus0.2)]
  if env.fbStatus0.2 then (t, ErrorPrereqs) else
  let t := t ++ [(Event.FbStatus, env.fbStatus1.2)]
  if env.fbStatus1.1 = DeviceStatus.NoDeviceFound then
    let t := t ++ [(Event.AdbStatus, env.adbStatus1.2)]
    match verifyAdbStatusOrAbort env.adbStatus1 with
    | some c => (t, c)
    | none =>
    let t := t ++ [(Event.AdbReboot "bootloader", env.adbRebootBlErr)]
    if env.adbRebootBlErr then (t, ErrorAdb) else
    let t := t ++ [(Event.Sleep 7000, false), (Event.FbStatus, env.fbStatus2.2)]
    if env.fbStatus2.2 = true ∨ env.fbStatus2.1 = DeviceStatus.NoDeviceFound then (t, ErrorAdb)
    else runMultiIdentify env t
  else runMultiIdentify env t

-- Example profile rows for the spec's shared-identifier scenario (the
-- registry contents are loaded from a config file external to src; these
-- rows instantiate three profiles sharing the QC_Reference_Phone board
-- name, the second of which declares an extra payload without a URL).
def dOP5 : Device :=
  { Common_name := "OnePlus 5", Product_name := "QC_Reference_Phone",
    Extra_file := "", Extra_url := "",
    Nhos_file := "nethunter-op5-os.zip", Nhos_url := "https://build.nethunter.com/op5-os.zip",
    Nhfs_file := "nethunter-op5-fs.zip", Nhfs_url := "https://build.nethunter.com/op5-fs.zip",
    Gapps_file := "gapps-op5.zip", Gapps_url := "https://build.nethunter.com/op5-gapps.zip",
    Twrp_file := "twrp-op5.img", Twrp_url := "https://dl.twrp.me/op5.img" }

def dOP2 : Device :=
  { Common_name := "OnePlus 2", Product_name := "QC_Reference_Phone",
    Extra_file := "firmware-op2.zip", Extra_url := "",
    Nhos_file := "nethunter-op2-os.zip", Nhos_url := "https://build.nethunter.com/op2-os.zip",
    Nhfs_file := "nethunter-op2-fs.zip", Nhfs_url := "https://build.nethunter.com/op2-fs.zip",
    Gapps_file := "gapps-op2.zip", Gapps_url := "https://build.nethunter.com/op2-gapps.zip",
    Twrp_file := "twrp-op2.img", Twrp_url := "https://dl.twrp.me/op2.img" }

def dOP1 : Device :=
  { Common_name := "OnePlus 1", Product_name := "QC_Reference_Phone",
    Extra_file := "", Extra_url := "",
    Nhos_file := "nethunter-op1-os.zip", Nhos_url := "https://build.nethunter.com/op1-os.zip",
    Nhfs_file := "nethunter-op1-fs.zip", Nhfs_url := "https://build.nethunter.com/op1-fs.zip",
    Gapps_file := "gapps-op1.zip", Gapps_url := "https://build.nethunter.com/op1-gapps.zip",
    Twrp_file := "twrp-op1.img", Twrp_url := "https://dl.twrp.me/op1.img" }

/-- An all-success environment for the OnePlus 5 installer: the device is
found in fastboot mode at once, the bootloader is already unlocked, every
artifact is present locally and every operation succeeds. -/
def happyEnv5 : Env5 :=
  { versionFlag := false, setenvErr := false, readLine := Except.ok "yes",
    adbStatus0 := (DeviceStatus.DeviceFound, false),
    fbStatus0 := (DeviceStatus.DeviceFound, false),
    fbStatus1 := (DeviceStatus.DeviceFound, false),
    adbStatus1 := (DeviceStatus.DeviceFound, false),
    adbRebootBlErr := false, fbStatus2 := (DeviceStatus.DeviceFound, false),
    fbStatus3 := (DeviceStatus.DeviceFound, false),
    getProduct := ("QC_Reference_Phone", false),
    unlockedRes := (true, false), unlockErr := false, fbRebootErr := false,
    stat := fun _ => true, download := fun _ => false,
    flashRecoveryErr := false, bootRecoveryErr := false, sideloadErr := false,
    fbStatus4 := (DeviceStatus.DeviceFound, false),
    adbStatus2 := (DeviceStatus.DeviceFound, false),
    adbRebootBl2Err := false, fbStatus5 := (DeviceStatus.DeviceFound, false),
    flashTwrpErr := false, bootTwrpErr := false, pushNhErr := false, installNhErr := false,
    wipeCacheErr := false, wipeDalvikErr := false, wipeDataErr := false,
    adbRebootFinalErr := false }

/-- Run in which all three error-discarding call sites err (the two
mode-detection fastboot status polls and the bootloader lock-state
query) while every other operation succeeds. -/
def envC1cex : Env5 :=
  { happyEnv5 with
    fbStatus1 := (DeviceStatus.NoDeviceFound, true),
    unlockedRes := (true, true),
    fbStatus4 := (DeviceStatus.NoDeviceFound, true) }

/-- Run in which the OS payload zip is absent locally and every download
fails, while every device operation succeeds. -/
def envC2cex : Env5 :=
  { happyEnv5 with stat := fun f => !(f == nhzip), download := fun _ => true }

/-- Run in which the TWRP image is absent locally while every other
artifact (in particular the factory zip) is present. -/
def envC3cex : Env5 :=
  { happyEnv5 with stat := fun f => !(f == twrp) }

/-- Locked-bootloader run: the lock-state query reports locked without
error. -/
def envC4w : Env5 := { happyEnv5 with unlockedRes := (false, false) }

/-- Run that starts with the bootloader reporting no device and still
reports no device at the single re-poll. -/
def envC5w : Env5 :=
  { happyEnv5 with
    fbStatus1 := (DeviceStatus.NoDeviceFound, false),
    fbStatus2 := (DeviceStatus.NoDeviceFound, false) }

/-- Run in which the operator declines the ready prompt. -/
def envC7w : Env5 := { happyEnv5 with readLine := Except.ok "no" }

/-- Run in which the bootloader lock-state query errs, returning the
zero-value false alongside the error. -/
def envC9w : Env5 := { happyEnv5 with unlockedRes := (false, true) }

/-- An all-success environment for the multi-profile installer over the
three shared-identifier profiles, the operator selecting the second
option and accepting the Gapps install. -/
def happyEnvM : EnvM :=
  { devices := [dOP5, dOP2, dOP1], versionFlag := false, setenvErr := false,
    readLine := Except.ok "yes",
    adbStatus0 := (DeviceStatus.DeviceFound, false),
    fbStatus0 := (DeviceStatus.DeviceFound, false),
    fbStatus1 := (DeviceStatus.DeviceFound, false),
    adbStatus1 := (DeviceStatus.DeviceFound, false),
    adbRebootBlErr := false, fbStatus2 := (DeviceStatus.DeviceFound, false),
    fbStatus3 := (DeviceStatus.DeviceFound, false),
    getProduct := ("QC_Reference_Phone", false), menuErr := false, menuChoice := 1,
    unlockedRes := (true, false), unlockErr := false, fbRebootErr := false,
    stat := fun _ => true, download := fun _ => false,
    flashTwrpErr := false, bootTwrpErr := false, wipeDalvikErr := false,
    wipeDataErr := false, wipeSystemErr := false,
    pushExtraErr := false, pushNhosErr := false, pushNhfsErr := false, pushGappsErr := false,
    installExtraErr := false, installNhosErr := false,
    gappsMenuErr := false, gappsYes := true, installGappsErr := false,
    wipeCache2Err := false, wipeDalvik2Err := false, adbRebootMidErr := false,
    adbStatus2 := (DeviceStatus.DeviceFound, false), adbRebootBl2Err := false,
    bootTwrp2Err := false, installNhfsErr := false, adbRebootFinalErr := false }

/-- Multi-profile run in which the reported product matches no registered
profile (empty registry, a non-OnePlus board name). -/
def envM8cex : EnvM := { happyEnvM with devices := [], getProduct := ("MSM8974", false) }

/-- Multi-profile run over the single profile dOP2 (non-empty extra file
name, empty extra URL), identified directly by its name. -/
def envC10w : EnvM := { happyEnvM with devices := [dOP2], getProduct := ("OnePlus 2", false) }

/-- C7: when the answer to the initial ready-to-install prompt is not the
affirmative "yes", the process exits with the user-declined success code
SuccessUserAbort and the trace is empty: no adb or fastboot call (indeed
no external operation at all) was issued before that exit. -/
theorem c7_decline_exits_before_any_control_plane_call (env : Env5) (s : String)
    (hv : env.versionFlag = false) (hs : env.setenvErr = false)
    (hr : env.readLine = Except.ok s) (hn : ¬ s = "yes") :
    run5 env = ([], SuccessUserAbort) := by
  simp [run5, hv, hs, hr, hn]

theorem c7_decline_exits_before_any_control_plane_call_witness :
    run5 envC7w = ([], SuccessUserAbort) :=
  c7_decline_exits_before_any_control_plane_call envC7w "no" rfl rfl rfl (by decide)

/-- C5: a run that begins with the bootloader control-plane reporting no
device issues exactly one reboot-to-bootloader request, one fixed 7000 ms
settle wait and exactly one re-poll of the bootloader status; when that
single re-poll errs or still reports no device, the run ends right there
with the control-plane error code ErrorAdb - the trace below is the whole
trace, so no second wait or retry is ever attempted. -/
theorem c5_one_settle_wait_one_repoll_then_fatal_abort (env : Env5)
    (hv : env.versionFlag = false) (hs : env.setenvErr = false)
    (hr : env.readLine = Except.ok "yes")
    (h0 : env.adbStatus0.2 = false) (h1 : env.fbStatus0.2 = false)
    (hm : env.fbStatus1.1 = DeviceStatus.NoDeviceFound)
    (ha : env.adbStatus1 = (DeviceStatus.DeviceFound, false))
    (hb : env.adbRebootBlErr = false)
    (hf : env.fbStatus2.2 = true ∨ env.fbStatus2.1 = DeviceStatus.NoDeviceFound) :
    run5 env =
      ([(Event.AdbStatus, false), (Event.FbStatus, false), (Event.FbStatus, env.fbStatus1.2),
        (Event.AdbStatus, false), (Event.AdbReboot "bootloader", false),
        (Event.Sleep 7000, false), (Event.FbStatus, env.fbStatus2.2)], ErrorAdb) := by
  rcases hf with hf | hf <;>
    simp [run5, verifyAdbStatusOrAbort, hv, hs, hr, h0, h1, hm, ha, hb, hf]

theorem c5_one_settle_wait_one_repoll_then_fatal_abort_witness :
    run5 envC5w =
      ([(Event.AdbStatus, false), (Event.FbStatus, false), (Event.FbStatus, false),
        (Event.AdbStatus, false), (Event.AdbReboot "bootloader", false),
        (Event.Sleep 7000, false), (Event.FbStatus, false)], ErrorAdb) :=
  c5_one_settle_wait_one_repoll_then_fatal_abort envC5w rfl rfl rfl rfl rfl rfl rfl rfl
    (Or.inr rfl)

/-- C9: when the bootloader lock-state query returns an error (with the
zero-value false the absent android client pairs with it, per the spec's
non-fatal "fails if undeterminable" contract), the orchestrator does not
abort: it proceeds exactly as for a confirmed locked bootloader, invoking
the device-wiping Unlock, rebooting, and ending the run with
SuccessBootloaderUnlocked. -/
theorem c9_lock_state_error_is_treated_as_locked (env : Env5)
    (hv : env.versionFlag = false) (hs : env.setenvErr = false)
    (hr : env.readLine = Except.ok "yes")
    (h0 : env.adbStatus0.2 = false) (h1 : env.fbStatus0.2 = false)
    (hm : env.fbStatus1.1 = DeviceStatus.DeviceFound)
    (h3 : env.fbStatus3 = (DeviceStatus.DeviceFound, false))
    (hg : env.getProduct.2 = false)
    (hu : env.unlockedRes = (false, true))
    (hk : env.unlockErr = false) :
    run5 env =
      ([(Event.AdbStatus, false), (Event.FbStatus, false), (Event.FbStatus, env.fbStatus1.2),
        (Event.FbStatus, false), (Event.FbGetProduct, false), (Event.FbUnlocked, true),
        (Event.FbUnlock, false), (Event.FbReboot, env.fbRebootErr)],
       SuccessBootloaderUnlocked) := by
  simp [run5, run5Main, verifyFastbootStatusOrAbort, hv, hs, hr, h0, h1, hm, h3, hg, hu, hk]

theorem c9_lock_state_error_is_treated_as_locked_witness :
    run5 envC9w =
      ([(Event.AdbStatus, false), (Event.FbStatus, false), (Event.FbStatus, false),
        (Event.FbStatus, false), (Event.FbGetProduct, false), (Event.FbUnlocked, true),
        (Event.FbUnlock, false), (Event.FbReboot, false)],
       SuccessBootloaderUnlocked) :=
  c9_lock_state_error_is_treated_as_locked envC9w rfl rfl rfl rfl rfl rfl rfl rfl rfl rfl

/-- C2 (code defect): in the run envC2cex the OS payload zip is absent and
its download fails, yet the run proceeds through flashing and sideloading
and terminates with the full-install success code 0 - never with
ErrorRemote.  Every caller of the download collaborator in src discards
its result, so a network failure is silently skipped instead of aborting
the staging stage. -/
theorem c2_failed_required_download_is_silently_skipped :
    (run5 envC2cex).2 = Success ∧
      (Event.Download nhzipurl, true) ∈ (run5 envC2cex).1 ∧
      (Event.FbFlashRecovery oxygenrecovery, false) ∈ (run5 envC2cex).1 ∧
      (Event.AdbSideload factory, false) ∈ (run5 envC2cex).1 ∧
      ¬ (run5 envC2cex).2 = ErrorRemote := by
  decide

/-- C3 (code defect): in the run envC3cex the TWRP image is absent while
the factory zip is present.  The staging step never checks the TWRP
image's presence (no Stat of it appears) and never downloads it - the
guard at src/main.go line 269 checks the factory zip instead - and the
absent image is later handed to flashRecovery. -/
theorem c3_twrp_download_guard_checks_factory_file :
    envC3cex.stat twrp = false ∧
      Event.Stat twrp ∉ (run5 envC3cex).1.map Prod.fst ∧
      Event.Download twrpurl ∉ (run5 envC3cex).1.map Prod.fst ∧
      Event.Stat factory ∈ (run5 envC3cex).1.map Prod.fst ∧
      Event.FbFlashRecovery twrp ∈ (run5 envC3cex).1.map Prod.fst := by
  decide

/-- C1 (counterexample to the claim as stated): in the run envC1cex the
first mode-detection fastboot status poll returns an error that the
source discards, and the run goes on to issue a reboot and the whole
flashing sequence, so a device-mutating call does execute after a failed
control-plane operation. -/
theorem c1_counterexample : noMutAfter (run5 envC1cex).1 = false := by
  decide

/-- C8 (counterexample to the claim as stated): when the resolved device
configuration is not found, the multi-profile installer terminates with
exit code 1, which belongs to neither the declared success codes nor the
declared error codes. -/
theorem c8_counterexample :
    (runMulti envM8cex).2 = 1 ∧
      (runMulti envM8cex).2 ∉ successCodes ∧ (runMulti envM8cex).2 ∉ errorCodes := by
  decide

theorem cleanCp_append (a b : List Entry) :
    cleanCp (a ++ b) = (cleanCp a && cleanCp b) := by
  induction a with
  | nil => simp [cleanCp]
  | cons e rest ih => simp [cleanCp, ih, Bool.and_assoc]

theorem verifyAdb_none_iff (r : DeviceStatus × Bool) :
    verifyAdbStatusOrAbort r = none ↔
      (r.2 = false ∧ ¬ r.1 = DeviceStatus.NoDeviceFound ∧
        ¬ r.1 = DeviceStatus.DeviceUnauthorized ∧ ¬ r.1 = DeviceStatus.NoUsbPerms) := by
  rcases r with ⟨s, b⟩
  cases s <;> cases b <;> simp [verifyAdbStatusOrAbort]

theorem verifyFastboot_none_iff (r : DeviceStatus × Bool) :
    verifyFastbootStatusOrAbort r = none ↔
      (r.2 = false ∧ ¬ r.1 = DeviceStatus.NoDeviceFound ∧ ¬ r.1 = DeviceStatus.NoUsbPerms) := by
  rcases r with ⟨s, b⟩
  cases s <;> cases b <;> simp [verifyFastbootStatusOrAbort]

theorem cleanCp_dl (c : Prop) [Decidable c] (u : String) (b : Bool) :
    cleanCp (if c then [] else [(Event.Download u, b)]) = true := by
  split <;> simp [cleanCp, cpOp]

/-- A trace with no failed control-plane call satisfies the
no-mutation-after-failure property. -/
theorem noMutAfter_of_cleanCp (t : List Entry) (h : cleanCp t = true) :
    noMutAfter t = true := by
  induction t with
  | nil => rfl
  | cons e rest ih =>
    rw [cleanCp, Bool.and_eq_true] at h
    rw [noMutAfter, Bool.and_eq_true]
    exact ⟨by simp [h.1], ih h.2⟩

/-- Prefixing a trace that satisfies the no-mutation-after-failure
property with a clean trace preserves the property. -/
theorem noMutAfter_clean_prefix (t s : List Entry) (h : cleanCp t = true)
    (hs : noMutAfter s = true) : noMutAfter (t ++ s) = true := by
  induction t with
  | nil => simpa using hs
  | cons e rest ih =>
    rw [cleanCp, Bool.and_eq_true] at h
    rw [List.cons_append, noMutAfter, Bool.and_eq_true]
    exact ⟨by simp [h.1], ih h.2⟩

theorem stage5_clean (env : Env5) : cleanCp (stage5 env) = true := by
  unfold stage5
  cases env.stat nhzip <;> cases env.stat oxygenrecovery <;> cases env.stat factory <;>
    simp [cleanCp_append, cleanCp, cpOp]

theorem run5Final_noMutAfter (env : Env5) (t : List Entry) (h : cleanCp t = true) :
    noMutAfter (run5Final env t).1 = true := by
  simp only [run5Final]
  repeat' split
  all_goals
    apply noMutAfter_clean_prefix <;>
      simp_all [cleanCp_append, cleanCp, cpOp, mutOp, noMutAfter]

theorem run5Main_noMutAfter (env : Env5) (t : List Entry)
    (h4 : env.fbStatus4.2 = false) (hu : env.unlockedRes.2 = false)
    (h : cleanCp t = true) :
    noMutAfter (run5Main env t).1 = true := by
  simp only [run5Main]
  repeat' split
  all_goals
    first
    | (apply run5Final_noMutAfter
       simp_all [cleanCp_append, cleanCp, cpOp, stage5_clean, cleanCp_dl,
         verifyFastboot_none_iff, verifyAdb_none_iff])
    | (apply noMutAfter_clean_prefix <;>
       simp_all [cleanCp_append, cleanCp, cpOp, mutOp, noMutAfter, stage5_clean, cleanCp_dl,
         verifyFastboot_none_iff, verifyAdb_none_iff])

/-- C1 (amended): provided the three call sites whose errors the source
discards do not err - the two mode-detection fastboot status polls
(src/main.go lines 190 and 310) and the bootloader lock-state query (line
230, which only logs a warning) - every adb or fastboot operation error
makes the run terminate before any subsequent flash, boot, sideload,
push, shell or reboot call: no device-mutating operation appears after a
failed control-plane operation anywhere in the trace. -/
theorem c1_error_stops_device_mutation_amended (env : Env5)
    (h1 : env.fbStatus1.2 = false) (h4 : env.fbStatus4.2 = false)
    (hu : env.unlockedRes.2 = false) :
    noMutAfter (run5 env).1 = true := by
  simp only [run5]
  repeat' split
  all_goals
    first
    | rfl
    | (exact run5Main_noMutAfter env _ h4 hu (by
        simp_all [cleanCp_append, cleanCp, cpOp, verifyAdb_none_iff]))
    | simp_all [noMutAfter, cpOp, mutOp, verifyAdb_none_iff]

theorem c1_error_stops_device_mutation_amended_witness :
    noMutAfter (run5 happyEnv5).1 = true :=
  c1_error_stops_device_mutation_amended happyEnv5 rfl rfl rfl

theorem allEv_append (p : Event → Bool) (a b : List Entry) :
    allEv p (a ++ b) = (allEv p a && allEv p b) := by
  induction a with
  | nil => simp [allEv]
  | cons e rest ih => simp [allEv, ih, Bool.and_assoc]

theorem hasEv_append (p : Event → Bool) (a b : List Entry) :
    hasEv p (a ++ b) = (hasEv p a || hasEv p b) := by
  induction a with
  | nil => simp [hasEv]
  | cons e rest ih => simp [hasEv, ih, Bool.or_assoc]

theorem run5Main_locked (env : Env5) (t : List Entry)
    (hl : env.unlockedRes = (false, false)) (hu : env.unlockErr = false)
    (ht : allEv (fun e => !stagingOrFlashOp e) t = true)
    (hn : hasEv isUnlock t = false) :
    bootUnlockedExit (run5Main env t) = true := by
  simp only [run5Main]
  repeat' split
  all_goals
    simp_all [bootUnlockedExit, allEv, hasEv, allEv_append, hasEv_append,
      stagingOrFlashOp, isUnlock, isFbReboot]

/-- C4: in every run whose bootloader lock-state query reports locked
(without error) and whose unlock succeeds, no staging download, stat,
flash, boot, sideload, push or shell operation is ever issued, and
whenever the unlock was actually invoked the run terminates with the
distinct SuccessBootloaderUnlocked code, a reboot having been issued. -/
theorem c4_locked_bootloader_run_is_terminal (env : Env5)
    (hl : env.unlockedRes = (false, false)) (hu : env.unlockErr = false) :
    bootUnlockedExit (run5 env) = true := by
  simp only [run5]
  repeat' split
  all_goals
    first
    | rfl
    | (exact run5Main_locked env _ hl hu
        (by simp_all [allEv, allEv_append, stagingOrFlashOp])
        (by simp_all [hasEv, hasEv_append, isUnlock]))

theorem c4_locked_bootloader_run_is_terminal_witness :
    bootUnlockedExit (run5 envC4w) = true :=
  c4_locked_bootloader_run_is_terminal envC4w rfl rfl

theorem verifyAdb_some_codes (r : DeviceStatus × Bool) (c : Nat)
    (h : verifyAdbStatusOrAbort r = some c) : c = ErrorAdb ∨ c = ErrorUsbPerms := by
  rcases r with ⟨s, b⟩
  cases s <;> cases b <;> simp_all [verifyAdbStatusOrAbort]

theorem verifyFastboot_some_codes (r : DeviceStatus × Bool) (c : Nat)
    (h : verifyFastbootStatusOrAbort r = some c) : c = ErrorFastboot ∨ c = ErrorUsbPerms := by
  rcases r with ⟨s, b⟩
  cases s <;> cases b <;> simp_all [verifyFastbootStatusOrAbort]

theorem run5Final_codes (env : Env5) (t : List Entry) :
    (run5Final env t).2 ∈ successCodes ∨ (run5Final env t).2 ∈ errorCodes := by
  simp only [run5Final]
  repeat' split
  all_goals (dsimp only; decide)

theorem run5Main_codes (env : Env5) (t : List Entry) :
    (run5Main env t).2 ∈ successCodes ∨ (run5Main env t).2 ∈ errorCodes := by
  simp only [run5Main]
  repeat' split
  all_goals
    first
    | (dsimp only; decide)
    | apply run5Final_codes
    | (rename_i c heq
       rcases verifyFastboot_some_codes _ _ heq with h | h <;> subst h <;> dsimp only <;> decide)
    | (rename_i c heq
       rcases verifyAdb_some_codes _ _ heq with h | h <;> subst h <;> dsimp only <;> decide)

theorem run5_codes (env : Env5) :
    (run5 env).2 ∈ successCodes ∨ (run5 env).2 ∈ errorCodes := by
  simp only [run5]
  repeat' split
  all_goals
    first
    | (dsimp only; decide)
    | apply run5Main_codes
    | (rename_i c heq
       rcases verifyAdb_some_codes _ _ heq with h | h <;> subst h <;> dsimp only <;> decide)

theorem runMultiTail_codes (env : EnvM) (d : Device) (t : List Entry) :
    (runMultiTail env d t).2 ∈ successCodes ∨ (runMultiTail env d t).2 ∈ errorCodes ∨
      (runMultiTail env d t).2 = 1 := by
  simp only [runMultiTail]
  repeat' split
  all_goals
    first
    | (dsimp only; decide)
    | (rename_i c heq
       rcases verifyAdb_some_codes _ _ heq with h | h <;> subst h <;> dsimp only <;> decide)

theorem runMultiGapps_codes (env : EnvM) (d : Device) (t : List Entry) :
    (runMultiGapps env d t).2 ∈ successCodes ∨ (runMultiGapps env d t).2 ∈ errorCodes ∨
      (runMultiGapps env d t).2 = 1 := by
  simp only [runMultiGapps]
  repeat' split
  all_goals first | (dsimp only; decide) | apply runMultiTail_codes

theorem runMultiPush_codes (env : EnvM) (d : Device) (t : List Entry) :
    (runMultiPush env d t).2 ∈ successCodes ∨ (runMultiPush env d t).2 ∈ errorCodes ∨
      (runMultiPush env d t).2 = 1 := by
  simp only [runMultiPush]
  repeat' split
  all_goals first | (dsimp only; decide) | apply runMultiGapps_codes

theorem runMultiInstall_codes (env : EnvM) (d : Device) (t : List Entry) :
    (runMultiInstall env d t).2 ∈ successCodes ∨ (runMultiInstall env d t).2 ∈ errorCodes ∨
      (runMultiInstall env d t).2 = 1 := by
  simp only [runMultiInstall]
  repeat' split
  all_goals first | (dsimp only; decide) | apply runMultiPush_codes

theorem runMultiStage_codes (env : EnvM) (d : Device) (t : List Entry) :
    (runMultiStage env d t).2 ∈ successCodes ∨ (runMultiStage env d t).2 ∈ errorCodes ∨
      (runMultiStage env d t).2 = 1 := by
  simp only [runMultiStage]
  apply runMultiInstall_codes

theorem runMultiResolve_codes (env : EnvM) (p : String) (t : List Entry) :
    (runMultiResolve env p t).2 ∈ successCodes ∨ (runMultiResolve env p t).2 ∈ errorCodes ∨
      (runMultiResolve env p t).2 = 1 := by
  simp only [runMultiResolve]
  repeat' split
  all_goals first | (dsimp only; decide) | apply runMultiStage_codes

theorem runMultiIdentify_codes (env : EnvM) (t : List Entry) :
    (runMultiIdentify env t).2 ∈ successCodes ∨ (runMultiIdentify env t).2 ∈ errorCodes ∨
      (runMultiIdentify env t).2 = 1 := by
  simp only [runMultiIdentify]
  repeat' split
  all_goals
    first
    | (dsimp only; decide)
    | apply runMultiResolve_codes
    | (rename_i c heq
       rcases verifyFastboot_some_codes _ _ heq with h | h <;> subst h <;> dsimp only <;> decide)

theorem runMulti_codes (env : EnvM) :
    (runMulti env).2 ∈ successCodes ∨ (runMulti env).2 ∈ errorCodes ∨
      (runMulti env).2 = 1 := by
  simp only [runMulti]
  repeat' split
  all_goals
    first
    | (dsimp only; decide)
    | apply runMultiIdentify_codes
    | (rename_i c heq
       rcases verifyAdb_some_codes _ _ heq with h | h <;> subst h <;> dsimp only <;> decide)

/-- C8 (amended): the declared success codes {0, 33, 34} and the declared
error codes {65..71} are disjoint, and the fixed-device installer
terminates only with declared codes; the multi-profile installer,
however, additionally exits with code 1 - outside both declared ranges -
on its device-configuration-not-found and menu-failure paths. -/
theorem c8_exit_code_partition_amended :
    (successCodes.all (fun c => !(errorCodes.contains c)) = true) ∧
    (∀ env : Env5, (run5 env).2 ∈ successCodes ∨ (run5 env).2 ∈ errorCodes) ∧
    (∀ env : EnvM,
      (runMulti env).2 ∈ successCodes ∨ (runMulti env).2 ∈ errorCodes ∨
        (runMulti env).2 = 1) :=
  ⟨by decide, fun env => run5_codes env, fun env => runMulti_codes env⟩

theorem commits_append (a b : List Entry) :
    commits (a ++ b) = commits a ++ commits b := by
  induction a with
  | nil => simp [commits]
  | cons e rest ih =>
    simp only [List.cons_append, commits, ih]
    split <;> simp [ih]

theorem stageM_commits (env : EnvM) (d : Device) : commits (stageM env d) = [] := by
  unfold stageM
  repeat' split
  all_goals simp [commits_append, commits, isCommit]

theorem runMultiTail_mono (env : EnvM) (d : Device) (t : List Entry) (e : Entry)
    (he : e ∈ t) : e ∈ (runMultiTail env d t).1 := by
  simp only [runMultiTail]
  repeat' split
  all_goals simp [he]

theorem runMultiGapps_mono (env : EnvM) (d : Device) (t : List Entry) (e : Entry)
    (he : e ∈ t) : e ∈ (runMultiGapps env d t).1 := by
  simp only [runMultiGapps]
  repeat' split
  all_goals first
    | (apply runMultiTail_mono; simp [he])
    | simp [he]

theorem runMultiTail_noDl (env : EnvM) (d : Device) (t : List Entry)
    (h : allEv (fun e => !isDownload e) t = true) :
    allEv (fun e => !isDownload e) (runMultiTail env d t).1 = true := by
  simp only [runMultiTail]
  repeat' split
  all_goals simp_all [allEv_append, allEv, isDownload]

theorem runMultiGapps_noDl (env : EnvM) (d : Device) (t : List Entry)
    (h : allEv (fun e => !isDownload e) t = true) :
    allEv (fun e => !isDownload e) (runMultiGapps env d t).1 = true := by
  simp only [runMultiGapps]
  repeat' split
  all_goals first
    | (apply runMultiTail_noDl
       simp_all [allEv_append, allEv, isDownload])
    | simp_all [allEv_append, allEv, isDownload]

theorem runMultiTail_commits (env : EnvM) (d : Device) (t : List Entry) :
    commits (runMultiTail env d t).1 = commits t := by
  simp only [runMultiTail]
  repeat' split
  all_goals simp [commits_append, commits, isCommit]

theorem runMultiGapps_commits (env : EnvM) (d : Device) (t : List Entry) :
    commits (runMultiGapps env d t).1 = commits t := by
  simp only [runMultiGapps]
  repeat' split
  all_goals first
    | (rw [runMultiTail_commits]; simp [commits_append, commits, isCommit])
    | simp [commits_append, commits, isCommit]

theorem runMultiPush_commits (env : EnvM) (d : Device) (t : List Entry) :
    commits (runMultiPush env d t).1 = commits t := by
  simp only [runMultiPush]
  repeat' split
  all_goals first
    | (rw [runMultiGapps_commits]; simp [commits_append, commits, isCommit])
    | simp [commits_append, commits, isCommit]

theorem runMultiInstall_commits (env : EnvM) (d : Device) (t : List Entry) :
    commits (runMultiInstall env d t).1 = commits t := by
  simp only [runMultiInstall]
  repeat' split
  all_goals first
    | (rw [runMultiPush_commits]; simp [commits_append, commits, isCommit])
    | simp [commits_append, commits, isCommit]

theorem runMultiStage_commits (env : EnvM) (d : Device) (t : List Entry) :
    commits (runMultiStage env d t).1 = commits t := by
  simp only [runMultiStage]
  rw [runMultiInstall_commits, commits_append, stageM_commits, List.append_nil]

theorem runMultiPush_mono (env : EnvM) (d : Device) (t : List Entry) (e : Entry)
    (he : e ∈ t) : e ∈ (runMultiPush env d t).1 := by
  simp only [runMultiPush]
  repeat' split
  all_goals first
    | (apply runMultiGapps_mono; simp [he])
    | simp [he]

theorem runMultiInstall_mono (env : EnvM) (d : Device) (t : List Entry) (e : Entry)
    (he : e ∈ t) : e ∈ (runMultiInstall env d t).1 := by
  simp only [runMultiInstall]
  repeat' split
  all_goals first
    | (apply runMultiPush_mono; simp [he])
    | simp [he]

theorem runMultiStage_mono (env : EnvM) (d : Device) (t : List Entry) (e : Entry)
    (he : e ∈ t) : e ∈ (runMultiStage env d t).1 := by
  simp only [runMultiStage]
  exact runMultiInstall_mono env d _ e (List.mem_append_left _ he)

/-- C6: when the bootloader reports the shared identifier
QC_Reference_Phone, registered by the three profiles dOP5, dOP2 and dOP1,
the orchestrator presents the three named choices to the operator, and
when the operator selects the second option the committed profile is
exactly dOP2 (the only commit in the whole trace names its two fields):
no profile is committed without the explicit selection. -/
theorem c6_shared_identifier_commits_selected_profile (env : EnvM)
    (hv : env.versionFlag = false) (hs : env.setenvErr = false)
    (hr : env.readLine = Except.ok "yes")
    (h0 : env.adbStatus0.2 = false) (h1 : env.fbStatus0.2 = false)
    (hm : env.fbStatus1.1 = DeviceStatus.DeviceFound)
    (h3 : env.fbStatus3 = (DeviceStatus.DeviceFound, false))
    (hg : env.getProduct = ("QC_Reference_Phone", false))
    (hme : env.menuErr = false) (hc : env.menuChoice = 1)
    (hd : env.devices = [dOP5, dOP2, dOP1]) :
    (Event.Menu ["OnePlus 5", "OnePlus 2", "OnePlus 1"], false) ∈ (runMulti env).1 ∧
    commits (runMulti env).1 =
      [(Event.CommitDevice "OnePlus 2" "QC_Reference_Phone", false)] := by
  simp only [runMulti, runMultiIdentify, runMultiResolve]
  simp [hv, hs, hr, h0, h1, hm, h3, hg, hme, hc, hd,
    verifyFastbootStatusOrAbort, findDeviceConfig, dOP5, dOP2, dOP1]
  repeat' split
  all_goals
    first
    | simp [commits, isCommit]
    | (refine ⟨runMultiStage_mono _ _ _ _ (by simp), ?_⟩
       rw [runMultiStage_commits]
       simp [commits, isCommit])

theorem c6_shared_identifier_commits_selected_profile_witness :
    (Event.Menu ["OnePlus 5", "OnePlus 2", "OnePlus 1"], false) ∈ (runMulti happyEnvM).1 ∧
    commits (runMulti happyEnvM).1 =
      [(Event.CommitDevice "OnePlus 2" "QC_Reference_Phone", false)] :=
  c6_shared_identifier_commits_selected_profile happyEnvM rfl rfl rfl rfl rfl rfl rfl rfl
    rfl rfl rfl

set_option maxHeartbeats 1600000 in
/-- C10: for a resolved profile whose extra file name is non-empty while
its extra URL is empty, no download whatsoever is attempted in the run
(in particular none of the extra artifact, whose staging block is guarded
on both fields being non-empty), yet the extra payload is still pushed to
the device and its install is still invoked - those stages are guarded
only by the non-empty file name. -/
theorem c10_extra_pushed_and_installed_without_download (env : EnvM) (d : Device)
    (hv : env.versionFlag = false) (hs : env.setenvErr = false)
    (hr : env.readLine = Except.ok "yes")
    (h0 : env.adbStatus0.2 = false) (h1 : env.fbStatus0.2 = false)
    (hm : env.fbStatus1.1 = DeviceStatus.DeviceFound)
    (h3 : env.fbStatus3 = (DeviceStatus.DeviceFound, false))
    (hq : ¬ env.getProduct.1 = "QC_Reference_Phone")
    (hge : env.getProduct.2 = false)
    (hf : findDeviceConfig env.devices env.getProduct.1 = d)
    (hcn : ¬ d.Common_name = "")
    (hef : ¬ d.Extra_file = "") (heu : d.Extra_url = "")
    (hul : env.unlockedRes.1 = true)
    (hs1 : env.stat d.Nhos_file = true) (hs2 : env.stat d.Nhfs_file = true)
    (hs3 : env.stat d.Gapps_file = true) (hs4 : env.stat d.Twrp_file = true)
    (hfl : env.flashTwrpErr = false) (hbt : env.bootTwrpErr = false)
    (hw1 : env.wipeDalvikErr = false) (hw2 : env.wipeDataErr = false)
    (hw3 : env.wipeSystemErr = false)
    (hpe : env.pushExtraErr = false) (hp1 : env.pushNhosErr = false)
    (hp2 : env.pushNhfsErr = false) (hp3 : env.pushGappsErr = false) :
    allEv (fun e => !isDownload e) (runMulti env).1 = true ∧
    (Event.AdbPush d.Extra_file "/sdcard", false) ∈ (runMulti env).1 ∧
    (Event.AdbShell ("twrp install /sdcard/" ++ d.Extra_file), env.installExtraErr) ∈
      (runMulti env).1 := by
  simp only [runMulti, runMultiIdentify, runMultiResolve, runMultiStage, stageM,
    runMultiInstall, runMultiPush]
  simp [hv, hs, hr, h0, h1, hm, h3, hq, hge, hf, hcn, hef, heu, hul, hs1, hs2, hs3, hs4,
    hfl, hbt, hw1, hw2, hw3, hpe, hp1, hp2, hp3, verifyFastbootStatusOrAbort]
  repeat' split
  all_goals
    refine ⟨?_, ?_, ?_⟩ <;>
      first
      | (apply runMultiGapps_noDl
         simp [allEv_append, allEv, isDownload])
      | (apply runMultiGapps_mono; simp)
      | simp [allEv_append, allEv, isDownload]

theorem c10_extra_pushed_and_installed_without_download_witness :
    allEv (fun e => !isDownload e) (runMulti envC10w).1 = true ∧
    (Event.AdbPush dOP2.Extra_file "/sdcard", false) ∈ (runMulti envC10w).1 ∧
    (Event.AdbShell ("twrp install /sdcard/" ++ dOP2.Extra_file),
      envC10w.installExtraErr) ∈ (runMulti envC10w).1 :=
  c10_extra_pushed_and_installed_without_download envC10w dOP2 rfl rfl rfl rfl rfl rfl rfl
    (by decide) rfl (by decide) (by decide) (by decide) rfl rfl rfl rfl rfl rfl rfl rfl rfl
    rfl rfl rfl rfl rfl rfl
